import Mathlib

/-!
Shallow embedding of the heuristic schema-profiling engine in
src/profiler/profiling.py: SmartSchemaDetector (get_smart_schema,
_analyze_string_content, identify_primary_key), analyze_foreign_keys,
detect_timestamp_column and detect_primary_event_timestamp.

Polars dataframes are modelled as named lists of columns; each column
carries its storage dtype and a list of optional values (None = null).
Ratios computed by the Python code with / are rationals; a Python
ZeroDivisionError or a polars column-lookup failure is modelled by the
Except error monad.  Regex matching on string samples is modelled by
executable character-level matchers for the four fixed patterns, with
the regex classes \w and \d read as their ASCII meaning.
-/

/-- Polars storage dtypes used by the repository. -/
inductive Dtype
  | Int64
  | Float64
  | Utf8
  | Date
  | Datetime
  | Boolean
deriving DecidableEq

/-- A cell value of a polars series (nulls are represented by Option). -/
inductive Val
  | vInt (n : Int)
  | vFloat (q : ℚ)
  | vStr (s : String)
  | vDate (n : Int)
  | vDatetime (n : Int)
  | vBool (b : Bool)
deriving DecidableEq

/-- One column of a dataframe: its name, dtype and cells (none = null). -/
structure Col where
  name : String
  dtype : Dtype
  values : List (Option Val)
deriving DecidableEq

/-- A polars DataFrame: ordered columns plus its row count (df.height). -/
structure DataFrame where
  cols : List Col
  height : Nat
deriving DecidableEq

/-- Well-formedness of a dataframe: polars guarantees distinct column
names and that every column has exactly df.height cells. -/
def DataFrame.WF (df : DataFrame) : Prop :=
  (df.cols.map Col.name).Nodup ∧ ∀ c ∈ df.cols, c.values.length = df.height

/-- df.columns: the ordered list of column names. -/
def DataFrame.columns (df : DataFrame) : List String :=
  df.cols.map Col.name

/-- df[name]: look a column up by name. -/
def DataFrame.colFind (df : DataFrame) (name : String) : Option Col :=
  df.cols.find? (fun c => c.name = name)

/-- series.null_count(). -/
def nullCount (c : Col) : Nat :=
  (c.values.filter Option.isNone).length

/-- series.drop_nulls(): the non-null cells in native row order. -/
def dropNulls (c : Col) : List Val :=
  c.values.filterMap id

/-- series.n_unique(): the number of distinct cell values; polars counts
a null as one distinct value. -/
def nUnique (c : Col) : Nat :=
  c.values.dedup.length

/-- Python substring test: needle in haystack (character lists). -/
def subList {α : Type} [DecidableEq α] (needle : List α) : List α → Bool
  | [] => needle.isEmpty
  | a :: rest => needle.isPrefixOf (a :: rest) || subList needle rest

/-- Python: needle in haystack, on strings. -/
def pyIn (needle haystack : String) : Bool :=
  subList needle.data haystack.data

/-- ASCII lowering of one character (Python str.lower on ASCII data). -/
def lowerChar (ch : Char) : Char :=
  if 'A' ≤ ch ∧ ch ≤ 'Z' then Char.ofNat (ch.toNat + 32) else ch

/-- Python str.lower, modelled on ASCII data. -/
def pyLower (s : String) : String :=
  String.mk (s.data.map lowerChar)

/-- Python str.rstrip("s"): drop every trailing letter s. -/
def rstripS (s : String) : String :=
  String.mk ((s.data.reverse.dropWhile (fun ch => ch = 's')).reverse)

/-- ASCII hexadecimal digit in lowercase form, for the UUID pattern. -/
def isHexLower (ch : Char) : Bool :=
  ch.isDigit || ('a' ≤ ch && ch ≤ 'f')

/-- ASCII reading of the regex class \w. -/
def isWordCh (ch : Char) : Bool :=
  ch.isAlphanum || ch = '_'

/-- ASCII reading of the regex class [\w\.-]. -/
def isWordDotDash (ch : Char) : Bool :=
  isWordCh ch || ch = '.' || ch = '-'

/-- Split a character list at the first occurrence of a character. -/
def splitFirst (ch : Char) : List Char → Option (List Char × List Char)
  | [] => none
  | a :: rest =>
    if a = ch then some ([], rest)
    else (splitFirst ch rest).map (fun p => (a :: p.1, p.2))

/-- Split a character list at the last occurrence of a character. -/
def splitLast (ch : Char) (l : List Char) : Option (List Char × List Char) :=
  (splitFirst ch l.reverse).map (fun p => (p.2.reverse, p.1.reverse))

/-- Full match of the UUID regex (8-4-4-4-12 lowercase hex groups). -/
def uuidMatch (s : String) : Bool :=
  let l := s.data
  l.length = 36 &&
    (List.range 36).all (fun i =>
      if i = 8 ∨ i = 13 ∨ i = 18 ∨ i = 23 then l.getD i ' ' = '-'
      else isHexLower (l.getD i ' '))

/-- Full match of the Email regex [\w\.-]+@[\w\.-]+\.\w+ : the classes
before and after the @ exclude @, and the final group excludes dots, so
a match splits at the first @ and the last dot after it. -/
def emailMatch (s : String) : Bool :=
  match splitFirst '@' s.data with
  | none => false
  | some (l, rest) =>
    !l.isEmpty && l.all isWordDotDash &&
      (match splitLast '.' rest with
       | none => false
       | some (m, r) =>
         !m.isEmpty && m.all isWordDotDash && !r.isEmpty && r.all isWordCh)

/-- Full match of the ISO date regex \d{4}-\d{2}-\d{2}. -/
def dateIsoMatch (s : String) : Bool :=
  let l := s.data
  l.length = 10 &&
    (List.range 10).all (fun i =>
      if i = 4 ∨ i = 7 then l.getD i ' ' = '-'
      else (l.getD i ' ').isDigit)

/-- Full match of the numeric-string regex \d+. -/
def numericMatch (s : String) : Bool :=
  !s.data.isEmpty && s.data.all Char.isDigit

/-- str(x) for a cell value; a Utf8 series holds vStr cells. -/
def valToStr : Val → String
  | .vStr s => s
  | .vInt n => toString n
  | .vFloat q => toString q
  | .vDate n => toString n
  | .vDatetime n => toString n
  | .vBool b => toString b

/-- The fixed pattern table of _analyze_string_content, in its
priority order (dict insertion order). -/
def patternList : List (String × (String → Bool)) :=
  [("UUID", uuidMatch), ("Email", emailMatch),
   ("Date_ISO", dateIsoMatch), ("Numeric_String", numericMatch)]

/-- series.drop_nulls().head(100): the sample used for pattern tests. -/
def sampleStr (c : Col) : List Val :=
  (dropNulls c).take 100

/-- SmartSchemaDetector._analyze_string_content: classify a string
column from its first-100 non-null sample; each pattern is applied to
the lowercased rendering of every sampled value and accepted only when
all of them match. -/
def analyze_string_content (rowCount : Nat) (c : Col) : String :=
  if (sampleStr c).isEmpty then "EmptyString"
  else
    match patternList.find?
        (fun p => (sampleStr c).all (fun v => p.2 (pyLower (valToStr v)))) with
    | some p => p.1
    | none => if nUnique c = rowCount then "Text (Unique ID?)" else "Free Text"

/-- str(dtype) renderings; the repository compares the stored rendering
against "Utf8", matching the polars versions that print pl.Utf8 that way. -/
def dtypeStr : Dtype → String
  | .Int64 => "Int64"
  | .Float64 => "Float64"
  | .Utf8 => "Utf8"
  | .Date => "Date"
  | .Datetime => "Datetime"
  | .Boolean => "Boolean"

/-- The per-column record built by get_smart_schema. -/
structure ColumnProfile where
  storage_type : String
  semantic_type : String
  is_pk_candidate : Bool
  completeness : ℚ
  cardinality : Nat
  notes : String
deriving DecidableEq

/-- The body of the get_smart_schema loop for one column.  The PK test
runs first; the categorical test then divides n_unique by row_count, so
a zero row count raises ZeroDivisionError there, before any profile for
the column is produced. -/
def profileColumn (rowCount : Nat) (c : Col) : Except String ColumnProfile :=
  if rowCount = 0 then .error "ZeroDivisionError"
  else
    .ok { storage_type := dtypeStr c.dtype
          semantic_type :=
            if c.dtype = .Utf8 then analyze_string_content rowCount c
            else if ((nUnique c : ℚ) / (rowCount : ℚ) < 1/10) ∨ (nUnique c < 50)
              then "Categorical" else dtypeStr c.dtype
          is_pk_candidate := nullCount c = 0 && nUnique c = rowCount
          completeness := 1 - (nullCount c : ℚ) / (rowCount : ℚ)
          cardinality := nUnique c
          notes := if nullCount c = 0 && nUnique c = rowCount
            then "PK Candidate" else "" }

/-- Effectful map over a list in the Except monad; the first raised
error aborts the remaining iterations, as a Python exception would. -/
def exceptMapList {α β : Type} (f : α → Except String β) :
    List α → Except String (List β)
  | [] => .ok []
  | a :: rest =>
    match f a with
    | .error e => .error e
    | .ok b => (exceptMapList f rest).map (fun bs => b :: bs)

/-- SmartSchemaDetector.get_smart_schema: the per-column profile map in
column order, or the first exception the loop raises. -/
def get_smart_schema (df : DataFrame) :
    Except String (List (String × ColumnProfile)) :=
  exceptMapList (fun c => (profileColumn df.height c).map (fun p => (c.name, p)))
    df.cols

/-- The Python sort key of identify_primary_key for one candidate name:
("id" not in x.lower(), storage_type == "Utf8"); False sorts first. -/
def pkSortKey (report : List (String × ColumnProfile)) (x : String) : Bool × Bool :=
  (!(pyIn "id" (pyLower x)),
   match report.lookup x with
   | some p => p.storage_type == "Utf8"
   | none => false)

/-- Ascending comparison of Python key tuples (False < True, then lex). -/
def tupleLe (p q : Bool × Bool) : Prop :=
  p.1 < q.1 ∨ (p.1 = q.1 ∧ p.2 ≤ q.2)

instance instDecTupleLe : ∀ p q : Bool × Bool, Decidable (tupleLe p q) :=
  fun p q => by unfold tupleLe; infer_instance

/-- The sort order used on PK candidates (stable ascending key sort, as
Python list.sort). -/
def pkOrd (report : List (String × ColumnProfile)) (a b : String) : Prop :=
  tupleLe (pkSortKey report a) (pkSortKey report b)

instance instDecPkOrd (report : List (String × ColumnProfile)) :
    DecidableRel (pkOrd report) :=
  fun a b => by unfold pkOrd; infer_instance

/-- The candidate list of identify_primary_key: columns whose profile
has is_pk_candidate set, in report order. -/
def pkCandidates (report : List (String × ColumnProfile)) : List String :=
  (report.filter (fun p => p.2.is_pk_candidate)).map Prod.fst

/-- SmartSchemaDetector.identify_primary_key: stable-sort the PK
candidates by the two-part key and return the first, or the composite
sentinel when there is no candidate. -/
def identify_primary_key (report : List (String × ColumnProfile)) : List String :=
  if (pkCandidates report).isEmpty then ["Composite Key Analysis Required"]
  else
    match (pkCandidates report).insertionSort (pkOrd report) with
    | [] => ["Composite Key Analysis Required"]
    | c :: _ => [c]

/-- One suggestion record emitted by analyze_foreign_keys. -/
structure FKSuggestion where
  column : String
  references : String
  confidence : String
  overlap_percent : ℚ
  match_reason : String
deriving DecidableEq

/-- dict.get(k, default-None): association-list lookup. -/
def pyGet {α : Type} (m : List (String × α)) (k : String) : Option α :=
  m.lookup k

/-- The name-heuristic score of analyze_foreign_keys (first matching
rule wins): exact name 1.0; singularized parent table name inside the
column name together with "id" 0.9; parent key name inside the column
name 0.5; otherwise 0. -/
def fkNameScore (col_name other_table pk : String) : ℚ :=
  let col_lower := pyLower col_name
  let table_lower := pyLower other_table
  let pk_lower := pyLower pk
  if col_lower = pk_lower then 1
  else if pyIn (rstripS table_lower) col_lower && pyIn "id" col_lower then 9/10
  else if pyIn pk_lower col_lower then 1/2
  else 0

/-- dtype.is_numeric() over the modelled dtypes. -/
def numericDtype : Dtype → Bool
  | .Int64 => true
  | .Float64 => true
  | _ => false

/-- The data-overlap fraction: among the child column's non-null values,
the fraction present in the parent key's distinct values (none when the
child has no non-null value, which the code skips). -/
def overlapFrac (child target : Col) : Option ℚ :=
  let child_values := dropNulls child
  if child_values.isEmpty then none
  else
    let parentVals := (dropNulls target).dedup
    some (((child_values.filter (fun v => parentVals.contains v)).length : ℚ) /
      (child_values.length : ℚ))

/-- Python round(x, 2): scale by 100 and round half to even. -/
def pyRound2 (x : ℚ) : ℚ :=
  let y := x * 100
  let n := ⌊y⌋
  let frac := y - (n : ℚ)
  let m :=
    if frac > 1/2 then n + 1
    else if frac < 1/2 then n
    else if n % 2 = 0 then n else n + 1
  (m : ℚ) / 100

/-- The final-decision step of analyze_foreign_keys for one scored pair:
at or above the threshold emit High (overlap exactly 1) or Medium, with
reason Exact Name (name score exactly 1) or Pattern Match; below it, with
overlap above 0.5 and name score above 0.8, emit the dirty-data Low
suggestion; otherwise none. -/
def fkDecision (threshold name_score overlap_pct : ℚ) :
    Option (String × String) :=
  if overlap_pct ≥ threshold then
    some ((if overlap_pct = 1 then "High" else "Medium"),
          (if name_score = 1 then "Exact Name" else "Pattern Match"))
  else if overlap_pct > 1/2 ∧ name_score > 4/5 then
    some ("Low (Dirty Data?)", "Strong Name Match, Partial Data")
  else none

/-- The body of the innermost analyze_foreign_keys loop for one
(column, parent table, parent key) triple: look the parent key column up
(raising if absent, as polars does), apply the type gate, the name-score
short-circuit, the overlap computation and the final decision. -/
def fkCheckPair (threshold : ℚ) (c : Col) (other_table : String)
    (target_df : DataFrame) (pk : String) :
    Except String (Option FKSuggestion) :=
  match target_df.colFind pk with
  | none => .error "ColumnNotFoundError"
  | some target =>
    if c.dtype ≠ target.dtype ∧ ¬(numericDtype c.dtype ∧ numericDtype target.dtype)
    then .ok none
    else
      let name_score := fkNameScore c.name other_table pk
      if name_score < 1/10 then .ok none
      else
        match overlapFrac c target with
        | none => .ok none
        | some ov =>
          .ok ((fkDecision threshold name_score ov).map (fun d =>
            { column := c.name
              references := other_table ++ "." ++ pk
              confidence := d.1
              overlap_percent := pyRound2 (ov * 100)
              match_reason := d.2 }))

/-- The middle analyze_foreign_keys loop for one candidate column and
one entry of the primary-key map: skip the current table, look the
parent dataframe up (KeyError if absent) and check every listed key. -/
def fkCheckTable (threshold : ℚ) (dataframes : List (String × DataFrame))
    (current_table_name : String) (c : Col) (entry : String × List String) :
    Except String (List FKSuggestion) :=
  if entry.1 = current_table_name then .ok []
  else
    match pyGet dataframes entry.1 with
    | none => .error "KeyError"
    | some target_df =>
      (exceptMapList (fkCheckPair threshold c entry.1 target_df) entry.2).map
        (List.filterMap id)

/-- analyze_foreign_keys: for every column of the current table outside
its own primary-key entry, scan every other table's primary-key columns
and collect the emitted suggestions in discovery order. -/
def analyze_foreign_keys (df : DataFrame) (current_table_name : String)
    (dataframes : List (String × DataFrame))
    (primary_keys : List (String × List String)) (threshold : ℚ) :
    Except String (List FKSuggestion) :=
  let current_pks := (pyGet primary_keys current_table_name).getD []
  let candidate_cols := df.cols.filter (fun c => ¬ current_pks.contains c.name)
  (exceptMapList (fun c =>
      (exceptMapList (fkCheckTable threshold dataframes current_table_name c)
        primary_keys).map List.flatten)
    candidate_cols).map List.flatten

/-- Date or Datetime storage dtype. -/
def isTemporal : Dtype → Bool
  | .Date => true
  | .Datetime => true
  | _ => false

/-- The candidate-gathering step of detect_timestamp_column: columns of
Date/Datetime dtype; only when there is none, any column whose name
contains one of the fallback keywords. -/
def dtCandidates (df : DataFrame) : List String :=
  let typed := (df.cols.filter (fun c => isTemporal c.dtype)).map Col.name
  if typed.isEmpty then
    (df.cols.filter (fun c =>
      ["date", "time", "timestamp", "created", "updated"].any
        (fun k => pyIn k (pyLower c.name)))).map Col.name
  else typed

/-- The multi-candidate score of detect_timestamp_column. -/
def dtScore (table_name col : String) : Int :=
  let cl := pyLower col
  (if ["created", "transaction", "order", "event_date", "timestamp"].any
      (fun k => pyIn k cl) then 3 else 0)
  + (if pyIn (pyLower table_name) cl then 2 else 0)
  + (if pyIn "date" cl || pyIn "time" cl then 1 else 0)
  - (if ["birth", "dob", "join", "start", "end"].any (fun k => pyIn k cl)
     then 2 else 0)
  - (if ["updated", "modified"].any (fun k => pyIn k cl) then 1 else 0)

/-- Python max(xs, key=score): the first element attaining the maximal
score, in iteration order. -/
def argmaxFirst {α : Type} (score : α → Int) : List α → Option α
  | [] => none
  | c :: rest =>
    match argmaxFirst score rest with
    | none => some c
    | some b => if score b > score c then some b else some c

/-- detect_timestamp_column: the simplified single-pass variant; a lone
candidate is returned without scoring, several candidates go through the
name scoring and the best one is returned only when its score is
strictly positive. -/
def detect_timestamp_column (df : DataFrame) (table_name : String) : String :=
  match dtCandidates df with
  | [] => ""
  | [c] => c
  | cs =>
    match argmaxFirst (dtScore table_name) cs with
    | none => ""
    | some best => if dtScore table_name best > 0 then best else ""

/-- The candidate-gathering step of detect_primary_event_timestamp:
Date/Datetime columns together with Utf8 columns whose name contains one
of the keywords date, time, ts, at, day. -/
def petPotentialCols (df : DataFrame) : List Col :=
  df.cols.filter (fun c =>
    isTemporal c.dtype ||
      (c.dtype == .Utf8 &&
        ["date", "time", "ts", "at", "day"].any (fun k => pyIn k (pyLower c.name))))

/-- The table-specific +5 bonus of detect_primary_event_timestamp: the
code tests substring containment of {singular table name}_date or
{singular table name}_time in the lowercased column name. -/
def petGoldBonus (table_name col_name : String) : Int :=
  let cl := pyLower col_name
  let root := rstripS (pyLower table_name)
  if pyIn (root ++ "_date") cl || pyIn (root ++ "_time") cl then 5 else 0

/-- The name-heuristic part of the detect_primary_event_timestamp score. -/
def petNameScore (table_name col_name : String) : Int :=
  let cl := pyLower col_name
  petGoldBonus table_name col_name
  + (if ["created_at", "record_date", "insertion_date", "event_time"].any
        (fun k => pyIn k cl) then 4 else 0)
  + (if pyIn "timestamp" cl || pyIn "datetime" cl then 3 else 0)
  - (if pyIn "updated" cl || pyIn "modified" cl then 1 else 0)
  - (if ["birth", "dob", "expiry", "expire", "due", "start", "end", "valid"].any
        (fun k => pyIn k cl) then 10 else 0)
  - (if pyIn "next" cl || pyIn "schedule" cl || pyIn "forecast" cl then 5 else 0)

/-- The full detect_primary_event_timestamp score of one candidate: the
hard null-ratio veto, then the cardinality bonus plus the name score. -/
def petScore (table_name : String) (rowCount : Nat) (c : Col) : Int :=
  if (nullCount c : ℚ) / (rowCount : ℚ) > 3/10 then -100
  else
    (if rowCount > 100 ∧ (nUnique c : ℚ) / (rowCount : ℚ) > 1/2 then 2 else 0)
    + petNameScore table_name c.name

/-- detect_primary_event_timestamp: the data-physics variant; gather
candidates, score them, drop non-positive scores and return the first
maximal one, or the empty string. -/
def detect_primary_event_timestamp (df : DataFrame) (table_name : String) :
    String :=
  if df.height = 0 then ""
  else if (petPotentialCols df).isEmpty then ""
  else
    match argmaxFirst (petScore table_name df.height)
        ((petPotentialCols df).filter
          (fun c => petScore table_name df.height c > 0)) with
    | none => ""
    | some c => c.name

example : pyIn "id" "customer_id" = true := by decide
example : pyIn "" "x" = true := by decide
example : rstripS "orders" = "order" := by decide
example : rstripS "address" = "addre" := by decide
example : dateIsoMatch "2020-01-31" = true := by decide
example : dateIsoMatch "2020-1-31" = false := by decide
example : emailMatch "a.b@c-d.org" = true := by decide
example : emailMatch "abc.org" = false := by decide
example : uuidMatch "123e4567-e89b-12d3-a456-426614174000" = true := by decide
example : numericMatch "0451" = true := by decide
example : numericMatch "x1" = false := by decide

deriving instance DecidableEq for Except

/-- Rank of a confidence label in the ordering used by the spec:
no suggestion 0, Low 1, Medium 2, High 3. -/
def confStrRank (s : String) : Nat :=
  if s = "Low (Dirty Data?)" then 1
  else if s = "Medium" then 2
  else if s = "High" then 3
  else 0

/-- Rank of one fkDecision outcome (confidence, reason). -/
def confRank : Option (String × String) → Nat
  | none => 0
  | some p => confStrRank p.1

/-- A 4-row Utf8 column with repeated plain-text values: categorical by
cardinality, matching no content pattern. -/
def exCol2 : Col :=
  ⟨"c", .Utf8, [some (.vStr "a"), some (.vStr "a"), some (.vStr "b"), some (.vStr "b")]⟩

/-- The one-column table holding exCol2. -/
def exDf2 : DataFrame := ⟨[exCol2], 4⟩

/-- A 2-row Int64 column with a repeated value (categorical, non-string). -/
def exCol2b : Col := ⟨"k", .Int64, [some (.vInt 1), some (.vInt 1)]⟩

/-- A child table with a single non-key integer column. -/
def exDfA : DataFrame := ⟨[⟨"x", .Int64, [some (.vInt 1)]⟩], 1⟩

/-- A parent table without the sentinel column. -/
def exDfB : DataFrame := ⟨[⟨"z", .Int64, [some (.vInt 1)]⟩], 1⟩

/-- A string column named reorder_date: contains order_date as a
substring without being equal to it. -/
def exColR : Col := ⟨"reorder_date", .Utf8, [some (.vStr "x")]⟩

/-- A string column named some_time: a candidate with name score 0. -/
def exColS : Col := ⟨"some_time", .Utf8, [some (.vStr "y")]⟩

/-- The orders table used for the gold-bonus containment example. -/
def exDf6 : DataFrame := ⟨[exColR, exColS], 1⟩

/-- The schema report of the spec's tie-break example: customer_id is an
integer PK candidate, code a string PK candidate. -/
def exReport7 : List (String × ColumnProfile) :=
  [("customer_id", ⟨"Int64", "Int64", true, 1, 2, "PK Candidate"⟩),
   ("code", ⟨"Utf8", "Free Text", true, 1, 2, "PK Candidate"⟩)]

/-- An order_date column with 2 nulls out of 5 rows (null ratio 0.4). -/
def exCol8 : Col :=
  ⟨"order_date", .Utf8,
   [some (.vStr "2024-01-01"), some (.vStr "2024-01-02"), some (.vStr "2024-01-03"),
    none, none]⟩

/-- The 5-row orders table holding exCol8. -/
def exDf8 : DataFrame := ⟨[exCol8], 5⟩

/-- A table whose only timestamp candidate carries penalty keywords. -/
def exDf10 : DataFrame := ⟨[⟨"birth_date", .Date, [some (.vDate 0)]⟩], 1⟩

/-- A table with one Date-typed column and one string date column: the
two candidate-gathering policies disagree on it. -/
def exDf5 : DataFrame :=
  ⟨[⟨"d", .Date, [some (.vDate 0)]⟩,
    ⟨"order_date", .Utf8, [some (.vStr "2020-01-01")]⟩], 1⟩

example : pyIn "id" "customer_id" = true := by decide
example : pyIn "" "x" = true := by decide
example : rstripS "orders" = "order" := by decide
example : rstripS "address" = "addre" := by decide
example : pyLower "Order_Date" = "order_date" := by decide
example : dateIsoMatch "2020-01-31" = true := by decide
example : dateIsoMatch "2020-1-31" = false := by decide
example : emailMatch "a.b@c-d.org" = true := by decide
example : emailMatch "abc.org" = false := by decide
example : uuidMatch "123e4567-e89b-12d3-a456-426614174000" = true := by decide
example : numericMatch "0451" = true := by decide
example : numericMatch "x1" = false := by decide

theorem argmaxFirst_mem {α : Type} (score : α → Int) :
    ∀ {l : List α} {x : α}, argmaxFirst score l = some x → x ∈ l := by
  intro l
  induction l with
  | nil => intro x h; simp [argmaxFirst] at h
  | cons c rest ih =>
    intro x h
    simp only [argmaxFirst] at h
    split at h
    · simp only [Option.some.injEq] at h
      subst h
      exact List.mem_cons_self c rest
    · next b hb =>
      split at h
      · simp only [Option.some.injEq] at h
        subst h
        exact List.mem_cons_of_mem c (ih hb)
      · simp only [Option.some.injEq] at h
        subst h
        exact List.mem_cons_self c rest

theorem dt_result_cases (df : DataFrame) (t : String) :
    detect_timestamp_column df t = "" ∨
      detect_timestamp_column df t ∈ dtCandidates df := by
  unfold detect_timestamp_column
  split
  · exact Or.inl rfl
  · next c heq =>
    refine Or.inr ?_
    rw [heq]
    exact List.mem_singleton.mpr rfl
  · next h1 h2 =>
    split
    · exact Or.inl rfl
    · next best heq2 =>
      by_cases hpos : dtScore t best > 0
      · rw [if_pos hpos]
        exact Or.inr (argmaxFirst_mem (dtScore t) heq2)
      · rw [if_neg hpos]
        exact Or.inl rfl

theorem pet_result_cases (df : DataFrame) (t : String) :
    detect_primary_event_timestamp df t = "" ∨
      ∃ c, c ∈ petPotentialCols df ∧ petScore t df.height c > 0 ∧
        detect_primary_event_timestamp df t = c.name := by
  unfold detect_primary_event_timestamp
  by_cases h0 : df.height = 0
  · rw [if_pos h0]
    exact Or.inl rfl
  · rw [if_neg h0]
    by_cases hemp : (petPotentialCols df).isEmpty
    · rw [if_pos hemp]
      exact Or.inl rfl
    · rw [if_neg hemp]
      cases hm : argmaxFirst (petScore t df.height)
          ((petPotentialCols df).filter (fun c => petScore t df.height c > 0)) with
      | none => exact Or.inl rfl
      | some c =>
        refine Or.inr ⟨c, ?_, ?_, rfl⟩
        · exact List.mem_of_mem_filter (argmaxFirst_mem _ hm)
        · have := List.of_mem_filter (argmaxFirst_mem _ hm)
          simpa using this

/-- C1: the spec promises that a table with row_count 0 profiles to an
empty SchemaReport; the code instead divides by the zero row count as
soon as it processes its first column, so any zero-row table that
declares at least one column raises ZeroDivisionError. -/
theorem get_smart_schema_zero_row_raises (df : DataFrame)
    (h0 : df.height = 0) (hc : df.cols ≠ []) :
    get_smart_schema df = .error "ZeroDivisionError" := by
  obtain ⟨c, rest, hcons⟩ := List.exists_cons_of_ne_nil hc
  unfold get_smart_schema
  rw [hcons]
  simp [exceptMapList, profileColumn, h0, Except.map]

theorem get_smart_schema_zero_row_raises_witness :
    get_smart_schema ⟨[⟨"a", .Int64, []⟩], 0⟩ = .error "ZeroDivisionError" :=
  get_smart_schema_zero_row_raises ⟨[⟨"a", .Int64, []⟩], 0⟩ rfl (by decide)

/-- C2 (counterexample): a 4-row string column with 2 distinct values
meets the categorical condition (n_unique < 50) and matches no content
pattern, yet its semantic type is Free Text, not Categorical. -/
theorem categorical_string_override_cex :
    nUnique exCol2 < 50 ∧
    (get_smart_schema exDf2).map (fun r => r.map (fun p => (p.1, p.2.semantic_type)))
      = .ok [("c", "Free Text")] ∧
    ("Free Text" : String) ≠ "Categorical" :=
  ⟨by decide, by decide, by decide⟩

/-- C2 (amended): a non-string column meeting the categorical condition
reports Categorical; a string column always reports the string-content
analysis label, which is never Categorical, so the string-content step
overrides the categorical label even when no pattern matches. -/
theorem categorical_override_amended :
    (∀ (rc : Nat) (c : Col), rc ≠ 0 → c.dtype ≠ .Utf8 →
      (((nUnique c : ℚ) / (rc : ℚ) < 1/10) ∨ nUnique c < 50) →
      (profileColumn rc c).map ColumnProfile.semantic_type = .ok "Categorical") ∧
    (∀ (rc : Nat) (c : Col), rc ≠ 0 → c.dtype = .Utf8 →
      (profileColumn rc c).map ColumnProfile.semantic_type
        = .ok (analyze_string_content rc c)) ∧
    (∀ (rc : Nat) (c : Col), analyze_string_content rc c ≠ "Categorical") := by
  refine ⟨?_, ?_, ?_⟩
  · intro rc c h0 hdt hcat
    unfold profileColumn
    rw [if_neg h0]
    show Except.ok (if c.dtype = .Utf8 then analyze_string_content rc c
      else if ((nUnique c : ℚ) / (rc : ℚ) < 1/10) ∨ (nUnique c < 50)
        then "Categorical" else dtypeStr c.dtype) = .ok "Categorical"
    rw [if_neg hdt, if_pos hcat]
  · intro rc c h0 hdt
    unfold profileColumn
    rw [if_neg h0]
    show Except.ok (if c.dtype = .Utf8 then analyze_string_content rc c
      else if ((nUnique c : ℚ) / (rc : ℚ) < 1/10) ∨ (nUnique c < 50)
        then "Categorical" else dtypeStr c.dtype) = .ok (analyze_string_content rc c)
    rw [if_pos hdt]
  · intro rc c
    unfold analyze_string_content
    split
    · decide
    · split
      · next p heq =>
        have hp := List.mem_of_find?_eq_some heq
        simp only [patternList, List.mem_cons, List.not_mem_nil, or_false] at hp
        rcases hp with rfl | rfl | rfl | rfl <;> decide
      · split <;> decide

theorem categorical_override_amended_witness :
    (profileColumn 2 exCol2b).map ColumnProfile.semantic_type = .ok "Categorical" ∧
    (profileColumn 4 exCol2).map ColumnProfile.semantic_type
      = .ok (analyze_string_content 4 exCol2) ∧
    analyze_string_content 4 exCol2 ≠ "Categorical" :=
  ⟨categorical_override_amended.1 2 exCol2b (by decide) (by decide) (Or.inr (by decide)),
   categorical_override_amended.2.1 4 exCol2 (by decide) (by decide),
   categorical_override_amended.2.2 4 exCol2⟩

theorem fkRank_eq (ns o : ℚ) (ho : 1/2 < o) (hns : 4/5 < ns) :
    confRank (fkDecision (19/20) ns o) =
      if (19:ℚ)/20 ≤ o then (if o = 1 then 3 else 2) else 1 := by
  unfold fkDecision
  by_cases hth : (19:ℚ)/20 ≤ o
  · rw [if_pos hth, if_pos hth]
    by_cases h1 : o = 1
    · rw [if_pos h1, if_pos h1]
      show confStrRank "High" = 3
      decide
    · rw [if_neg h1, if_neg h1]
      show confStrRank "Medium" = 2
      decide
  · rw [if_neg hth, if_neg hth]
    rw [if_pos (⟨ho, hns⟩ : o > 1/2 ∧ ns > 4/5)]
    show confStrRank "Low (Dirty Data?)" = 1
    decide

/-- C3 (counterexample): with name score 0.9 the decision at overlap
exactly 0.95 is a Medium suggestion, not High, and already at overlap
0.6 a Low suggestion is emitted rather than no suggestion, so the
claimed flip from no-suggestion to High at 0.95 fails on both sides. -/
theorem fk_high_flip_cex :
    fkDecision (19/20) (9/10) (19/20) = some ("Medium", "Pattern Match") ∧
    fkDecision (19/20) (9/10) (3/5)
      = some ("Low (Dirty Data?)", "Strong Name Match, Partial Data") ∧
    some (("Medium" : String), ("Pattern Match" : String))
      ≠ some ("High", "Pattern Match") :=
  ⟨by norm_num [fkDecision], by norm_num [fkDecision], by decide⟩

/-- C3 (amended): for fixed name score at least 0.9 and overlap rising
from 0.6 to 1.0, the emitted confidence never decreases in the order
Low < Medium < High, a suggestion is always emitted on that range, the
confidence is High exactly at overlap 1.0, and it is at least Medium
exactly from the 0.95 threshold (inclusive) upward. -/
theorem fk_confidence_monotone_amended :
    (∀ ns o1 o2 : ℚ, 9/10 ≤ ns → 3/5 ≤ o1 → o1 ≤ o2 → o2 ≤ 1 →
      confRank (fkDecision (19/20) ns o1) ≤ confRank (fkDecision (19/20) ns o2)) ∧
    (∀ ns o : ℚ, 9/10 ≤ ns → 3/5 ≤ o → o ≤ 1 →
      fkDecision (19/20) ns o ≠ none) ∧
    (∀ ns o : ℚ, 9/10 ≤ ns → 3/5 ≤ o → o ≤ 1 →
      (confRank (fkDecision (19/20) ns o) = 3 ↔ o = 1)) ∧
    (∀ ns o : ℚ, 9/10 ≤ ns → 3/5 ≤ o → o ≤ 1 →
      (2 ≤ confRank (fkDecision (19/20) ns o) ↔ (19:ℚ)/20 ≤ o)) := by
  refine ⟨?_, ?_, ?_, ?_⟩
  · intro ns o1 o2 hns h1 h12 h2
    rw [fkRank_eq ns o1 (by linarith) (by linarith),
      fkRank_eq ns o2 (by linarith) (by linarith)]
    by_cases t2 : (19:ℚ)/20 ≤ o2
    · rw [if_pos t2]
      by_cases e2 : o2 = 1
      · rw [if_pos e2]
        split_ifs <;> omega
      · rw [if_neg e2]
        have e1 : ¬ o1 = 1 := fun h => e2 (le_antisymm h2 (h ▸ h12))
        by_cases a : (19:ℚ)/20 ≤ o1
        · rw [if_pos a, if_neg e1]
        · rw [if_neg a]
          omega
    · rw [if_neg t2]
      have t1 : ¬ (19:ℚ)/20 ≤ o1 := fun h => t2 (le_trans h h12)
      rw [if_neg t1]
  · intro ns o hns h1 h2
    unfold fkDecision
    by_cases a : o ≥ (19:ℚ)/20
    · rw [if_pos a]
      simp
    · rw [if_neg a, if_pos (⟨by linarith, by linarith⟩ : o > 1/2 ∧ ns > 4/5)]
      simp
  · intro ns o hns h1 h2
    rw [fkRank_eq ns o (by linarith) (by linarith)]
    constructor
    · intro h
      by_cases t : (19:ℚ)/20 ≤ o
      · rw [if_pos t] at h
        by_cases e : o = 1
        · exact e
        · rw [if_neg e] at h
          omega
      · rw [if_neg t] at h
        omega
    · intro e
      rw [if_pos (by rw [e]; norm_num : (19:ℚ)/20 ≤ o), if_pos e]
  · intro ns o hns h1 h2
    rw [fkRank_eq ns o (by linarith) (by linarith)]
    constructor
    · intro h
      by_cases t : (19:ℚ)/20 ≤ o
      · exact t
      · rw [if_neg t] at h
        omega
    · intro t
      rw [if_pos t]
      split_ifs <;> omega

theorem fk_confidence_monotone_amended_witness :
    confRank (fkDecision (19/20) (9/10) (3/5)) ≤ confRank (fkDecision (19/20) (9/10) 1) ∧
    fkDecision (19/20) (9/10) (19/20) ≠ none ∧
    (confRank (fkDecision (19/20) (9/10) 1) = 3 ↔ (1:ℚ) = 1) ∧
    (2 ≤ confRank (fkDecision (19/20) (9/10) (19/20)) ↔ (19:ℚ)/20 ≤ 19/20) :=
  ⟨fk_confidence_monotone_amended.1 (9/10) (3/5) 1 (le_refl _) (le_refl _)
      (by norm_num) (le_refl _),
   fk_confidence_monotone_amended.2.1 (9/10) (19/20) (le_refl _) (by norm_num)
      (by norm_num),
   fk_confidence_monotone_amended.2.2.1 (9/10) 1 (le_refl _) (by norm_num) (le_refl _),
   fk_confidence_monotone_amended.2.2.2 (9/10) (19/20) (le_refl _) (by norm_num)
      (by norm_num)⟩

/-- C4: when some other table's primary-key entry is the composite-key
sentinel, analyze_foreign_keys looks the sentinel string up as a column
of that table and raises, instead of returning a suggestion list. -/
theorem fk_sentinel_lookup_raises :
    analyze_foreign_keys exDfA "a" [("a", exDfA), ("b", exDfB)]
      [("a", ["Composite Key Analysis Required"]),
       ("b", ["Composite Key Analysis Required"])] (19/20)
      = .error "ColumnNotFoundError" := by decide

/-- C5 (counterexample): on a table with one Date-typed column and one
string column named order_date, the simplified variant gathers only the
typed column while the data-physics variant also gathers the string
column, so the two candidate-gathering steps are not the same. -/
theorem timestamp_candidate_gathering_cex :
    dtCandidates exDf5 = ["d"] ∧
    (petPotentialCols exDf5).map Col.name = ["d", "order_date"] ∧
    ("order_date" : String) ∉ dtCandidates exDf5 ∧
    dtCandidates exDf5 ≠ (petPotentialCols exDf5).map Col.name := by decide

/-- C5 (amended): the two variants share only the output contract: each
returns the empty string or the name of one of its own gathered
candidates; their candidate-gathering steps differ. -/
theorem timestamp_variants_contract :
    (∀ df t, detect_timestamp_column df t = "" ∨
      detect_timestamp_column df t ∈ dtCandidates df) ∧
    (∀ df t, detect_primary_event_timestamp df t = "" ∨
      detect_primary_event_timestamp df t ∈ (petPotentialCols df).map Col.name) := by
  constructor
  · exact dt_result_cases
  · intro df t
    rcases pet_result_cases df t with h | ⟨c, hc, _, hname⟩
    · exact Or.inl h
    · exact Or.inr (hname ▸ List.mem_map_of_mem Col.name hc)

/-- C6 (counterexample): the +5 bonus fires for the column reorder_date
in table orders although the name equals neither order_date nor
order_time, because the code tests substring containment. -/
theorem gold_bonus_equality_cex :
    petGoldBonus "orders" "reorder_date" = 5 ∧
    ("reorder_date" : String) ≠ "order_date" ∧
    ("reorder_date" : String) ≠ "order_time" := by decide

/-- C6 (amended): the +5 bonus is awarded exactly when the lowercased
column name contains {singularized table name}_date or _time as a
substring; consequently the substring-matching column reorder_date is
selected as the primary event timestamp of the orders table. -/
theorem gold_bonus_containment_amended :
    (∀ t c, petGoldBonus t c = 5 ↔
      (pyIn (rstripS (pyLower t) ++ "_date") (pyLower c)
        || pyIn (rstripS (pyLower t) ++ "_time") (pyLower c)) = true) ∧
    detect_primary_event_timestamp exDf6 "orders" = "reorder_date" := by
  constructor
  · intro t c
    simp only [petGoldBonus]
    split_ifs with h
    · exact iff_of_true rfl h
    · exact iff_of_false (by omega) h
  · have hR : petScore "orders" 1 exColR = 5 := by
      unfold petScore
      rw [if_neg (by rw [show nullCount exColR = 0 from by decide]; norm_num)]
      rw [if_neg (by simp)]
      decide
    have hS : petScore "orders" 1 exColS = 0 := by
      unfold petScore
      rw [if_neg (by rw [show nullCount exColS = 0 from by decide]; norm_num)]
      rw [if_neg (by simp)]
      decide
    have hpc : petPotentialCols exDf6 = [exColR, exColS] := by decide
    have hh : exDf6.height = 1 := rfl
    unfold detect_primary_event_timestamp
    rw [hh, hpc]
    rw [if_neg (by decide : ¬ ((1:Nat) = 0))]
    rw [if_neg (by decide : ¬ (([exColR, exColS] : List Col).isEmpty = true))]
    rw [List.filter_cons, List.filter_cons, List.filter_nil]
    simp only [hR, hS]
    norm_num [argmaxFirst]
    decide

/-- C10: whenever the simplified variant gathers exactly one candidate
column, that column is returned unconditionally, without scoring. -/
theorem lone_candidate_unconditional (df : DataFrame) (t c : String)
    (h : dtCandidates df = [c]) :
    detect_timestamp_column df t = c := by
  unfold detect_timestamp_column
  rw [h]

theorem lone_candidate_unconditional_witness :
    detect_timestamp_column exDf10 "people" = "birth_date" ∧
    dtScore "people" "birth_date" < 0 :=
  ⟨lone_candidate_unconditional exDf10 "people" "birth_date" (by decide), by decide⟩

theorem tupleLe_refl : ∀ p : Bool × Bool, tupleLe p p := by decide

theorem tupleLe_total : ∀ p q : Bool × Bool, tupleLe p q ∨ tupleLe q p := by decide

theorem tupleLe_trans :
    ∀ p q r : Bool × Bool, tupleLe p q → tupleLe q r → tupleLe p r := by decide

/-- C7: with at least one PK candidate, identify_primary_key returns a
one-element list holding a candidate that is least under the two-part
ascending key (names containing id first, then non-Utf8 storage first);
on the spec's example it picks customer_id; with no candidate it
returns the composite-key sentinel. -/
theorem identify_primary_key_tiebreak :
    (∀ report : List (String × ColumnProfile), pkCandidates report ≠ [] →
      ∃ c, identify_primary_key report = [c] ∧ c ∈ pkCandidates report ∧
        ∀ x ∈ pkCandidates report, pkOrd report c x) ∧
    identify_primary_key exReport7 = ["customer_id"] ∧
    (∀ report : List (String × ColumnProfile), pkCandidates report = [] →
      identify_primary_key report = ["Composite Key Analysis Required"]) := by
  refine ⟨?_, by decide, ?_⟩
  · intro report hne
    haveI hTot : IsTotal String (pkOrd report) := ⟨fun a b => tupleLe_total _ _⟩
    haveI hTrans : IsTrans String (pkOrd report) :=
      ⟨fun a b c h1 h2 => tupleLe_trans _ _ _ h1 h2⟩
    have hne2 : (pkCandidates report).isEmpty ≠ true := by
      simp only [ne_eq, List.isEmpty_eq_true]
      exact hne
    unfold identify_primary_key
    rw [if_neg hne2]
    cases hs : (pkCandidates report).insertionSort (pkOrd report) with
    | nil =>
      exfalso
      have hp := List.perm_insertionSort (pkOrd report) (pkCandidates report)
      rw [hs] at hp
      exact hne hp.symm.eq_nil
    | cons c rest =>
      refine ⟨c, rfl, ?_, ?_⟩
      · have hmem : c ∈ (pkCandidates report).insertionSort (pkOrd report) := by
          rw [hs]
          exact List.mem_cons_self c rest
        exact (List.mem_insertionSort _).mp hmem
      · intro x hx
        have hsorted := List.sorted_insertionSort (pkOrd report) (pkCandidates report)
        rw [hs] at hsorted
        have hx2 : x ∈ (pkCandidates report).insertionSort (pkOrd report) :=
          (List.mem_insertionSort _).mpr hx
        rw [hs] at hx2
        rcases List.mem_cons.mp hx2 with rfl | hx3
        · exact tupleLe_refl _
        · exact (List.sorted_cons.mp hsorted).1 x hx3
  · intro report h
    unfold identify_primary_key
    rw [if_pos (by simp [h])]

theorem identify_primary_key_tiebreak_witness :
    identify_primary_key [] = ["Composite Key Analysis Required"] :=
  identify_primary_key_tiebreak.2.2 [] rfl

/-- C8: a candidate whose null ratio exceeds 0.3 gets the hard-veto
score -100 and is never the column selected by the data-physics
timestamp detector (whose non-empty results all have positive score). -/
theorem null_ratio_veto (df : DataFrame) (t : String) (c : Col)
    (hnodup : (df.cols.map Col.name).Nodup)
    (hc : c ∈ petPotentialCols df)
    (hratio : (nullCount c : ℚ) / (df.height : ℚ) > 3/10) :
    petScore t df.height c = -100 ∧
    (detect_primary_event_timestamp df t = "" ∨
      detect_primary_event_timestamp df t ≠ c.name) := by
  have hscore : petScore t df.height c = -100 := by
    unfold petScore
    rw [if_pos hratio]
  refine ⟨hscore, ?_⟩
  rcases pet_result_cases df t with h | ⟨c2, hc2, hpos, hname⟩
  · exact Or.inl h
  · refine Or.inr ?_
    rw [hname]
    intro heq
    have hcc : c2 = c := by
      have h1 : c ∈ df.cols := List.mem_of_mem_filter hc
      have h2 : c2 ∈ df.cols := List.mem_of_mem_filter hc2
      exact List.inj_on_of_nodup_map hnodup h2 h1 heq
    rw [hcc, hscore] at hpos
    omega

theorem null_ratio_veto_witness :
    petScore "orders" exDf8.height exCol8 = -100 ∧
    (detect_primary_event_timestamp exDf8 "orders" = "" ∨
      detect_primary_event_timestamp exDf8 "orders" ≠ exCol8.name) :=
  null_ratio_veto exDf8 "orders" exCol8 (by decide) (by decide)
    (by rw [show nullCount exCol8 = 2 from by decide,
          show exDf8.height = 5 from rfl]
        norm_num)

/-- C9: the string sample is the first 100 non-null values in native row
order (a prefix of the non-null sequence, of length min 100 its length),
and every core operation, being a pure function of its input, returns
the same output when run twice on the same tables. -/
theorem pipeline_deterministic_sampling :
    (∀ c : Col, (∃ rest, dropNulls c = sampleStr c ++ rest) ∧
      (sampleStr c).length = min 100 (dropNulls c).length) ∧
    (∀ df, get_smart_schema df = get_smart_schema df) ∧
    (∀ report, identify_primary_key report = identify_primary_key report) ∧
    (∀ df n dfs pks th, analyze_foreign_keys df n dfs pks th
      = analyze_foreign_keys df n dfs pks th) ∧
    (∀ df t, detect_timestamp_column df t = detect_timestamp_column df t ∧
      detect_primary_event_timestamp df t = detect_primary_event_timestamp df t) := by
  refine ⟨?_, fun _ => rfl, fun _ => rfl, fun _ _ _ _ _ => rfl, fun _ _ => ⟨rfl, rfl⟩⟩
  intro c
  constructor
  · exact ⟨(dropNulls c).drop 100, (List.take_append_drop 100 (dropNulls c)).symm⟩
  · simp [sampleStr, List.length_take]
